import Mathlib

/-!
# Verification of the confession-tip admission pipeline

Shallow embedding of the tip-verification and aggregate-update core of the
confession-tip web application:

* `src/app/api/tips/route.ts` — the `POST /api/tips` handler (`postTip` below);
* `src/lib/db/tips.ts` — `getTipByTransactionHash`, `createTip`;
* `src/lib/db/confessions.ts` — `getConfessionById`, `updateConfessionTips`;
* `src/lib/db/users.ts` — `getOrCreateUser`, `incrementUserTipsGiven`,
  `incrementUserTipsReceived`, `generateReferralCode`;
* the SQL helper `update_confession_tips` and the `increment_user_tips_*`
  stored procedures (atomic row increments);
* `src/lib/utils/rateLimit.ts` — `checkRateLimit` and `RATE_LIMITS`.

Modelling conventions: JS numbers holding USDC amounts are modelled as `ℚ`
(the route computes `Number(value) / 1_000_000` from an integer raw amount;
at the granularities stated in the spec the float and rational computations
agree).  Timestamps are `Int` milliseconds.  The external chain client
(viem `getTransaction` / `getTransactionReceipt` / `decodeEventLog`) and the
health of the rate-limit store are an explicit environment `ChainEnv`.
Database rows are lists; Supabase `.eq` filters are exact string matches and
`.single()` lookups are `List.find?`.  Fields of rows that the pipeline
never reads or writes (timestamps on confessions, `total_confessions`,
`referral_count`, `fid`, `username` on users) are omitted.
-/

set_option autoImplicit false

attribute [local semireducible] Rat.mul Rat.add Rat.inv Rat.sub

namespace ConfessionTip

/-- JS `String.prototype.toLowerCase` on the ASCII strings handled here:
character-wise lowercasing. -/
def toLowerCase (s : String) : String := ⟨s.data.map Char.toLower⟩

/-- JS `String.prototype.toUpperCase` on the ASCII strings handled here. -/
def toUpperCase (s : String) : String := ⟨s.data.map Char.toUpper⟩

/-! ## Data model (src/types/index.ts) -/

/-- A row of the `tips` table (`Tip` in src/types/index.ts). -/
structure Tip where
  id : String
  confession_id : String
  tipper_address : String
  amount : ℚ
  transaction_hash : String
  created_at : Int
  deriving DecidableEq, Repr

/-- A row of the `confessions` table (`Confession` in src/types/index.ts);
the timestamp fields, which the pipeline never reads, are omitted. -/
structure Confession where
  id : String
  text : String
  category : String
  author_address : String
  total_tips : ℚ
  tip_count : Nat
  deriving DecidableEq, Repr

/-- A row of the `users` table (`User` in src/types/index.ts), restricted to
the fields the tip pipeline touches. -/
structure User where
  address : String
  total_tips_given : ℚ
  total_tips_received : ℚ
  referral_code : String
  deriving DecidableEq, Repr

/-- The datastore contents visible to the tip pipeline. -/
structure DbState where
  tips : List Tip
  confessions : List Confession
  users : List User
  deriving DecidableEq, Repr

/-! ## Chain data (the viem client results used by the route) -/

/-- The part of a fetched transaction the route reads: its `to` address,
which may be null for contract-creation transactions. -/
structure TransactionData where
  toAddr : Option String
  deriving DecidableEq, Repr

/-- One entry of `receipt.logs`: emitting contract address, topics, data. -/
structure LogEntry where
  address : String
  topics : List String
  data : String
  deriving DecidableEq, Repr

/-- The part of a transaction receipt the route reads. -/
structure TransactionReceipt where
  status : String
  logs : List LogEntry
  deriving DecidableEq, Repr

/-- The decoded `Transfer(address,address,uint256)` event arguments. -/
structure DecodedTransfer where
  fromAddr : String
  toRecipient : String
  value : Nat
  deriving DecidableEq, Repr

/-- The external world as seen by one invocation of the route: the chain
client, the configured USDC address (`NEXT_PUBLIC_USDC_ADDRESS`), whether the
rate-limit count query errors, the clock, and the id the store generates for
a newly inserted tip.  `decodeTransferLog = none` models `decodeEventLog`
throwing on malformed event data. -/
structure ChainEnv where
  getTransaction : String → Option TransactionData
  getTransactionReceipt : String → Option TransactionReceipt
  decodeTransferLog : LogEntry → Option DecodedTransfer
  usdcAddress : Option String
  rateStoreError : Bool
  now : Int
  freshTipId : String

/-! ## Request and response -/

/-- The JSON body of `POST /api/tips` (`CreateTipRequest`); `none` models an
absent field, which is falsy in the route's presence check like `""`. -/
structure CreateTipRequest where
  confession_id : Option String
  tipper_address : Option String
  transaction_hash : Option String
  deriving DecidableEq, Repr

/-- The route's response: either the 201 success body
`{ tip, confession }` (`CreateTipResponse`) or an error status with its
`{ error }` message. -/
inductive TipResponse where
  | success (tip : Tip) (confession : Confession)
  | failure (status : Nat) (error : String)
  deriving DecidableEq, Repr

/-- JS falsiness of an optional string field: absent or empty. -/
def isMissing (o : Option String) : Bool := o.getD "" == ""

/-- `[a-fA-F0-9]` — one hex digit. -/
def isHexDigit (c : Char) : Bool :=
  c.isDigit || ('a' ≤ c && c ≤ 'f') || ('A' ≤ c && c ≤ 'F')

/-- `/^0x[a-fA-F0-9]{40}$/` — the address format check. -/
def isAddressFormat (s : String) : Bool :=
  s.data.length == 42 && s.data.take 2 == ['0', 'x']
    && (s.data.drop 2).all isHexDigit

/-- `/^0x[a-fA-F0-9]{64}$/` — the transaction hash format check. -/
def isTxHashFormat (s : String) : Bool :=
  s.data.length == 66 && s.data.take 2 == ['0', 'x']
    && (s.data.drop 2).all isHexDigit

/-! ## Ledger store (src/lib/db/tips.ts) -/

/-- `getTipByTransactionHash`: `.eq("transaction_hash", h).single()`,
`null` when no row matches (PGRST116). -/
def getTipByTransactionHash (tips : List Tip) (h : String) : Option Tip :=
  tips.find? fun t => t.transaction_hash == h

/-- `createTip`: inserts a row into `tips`.  The table's unique constraint
on `transaction_hash` (the spec's `externalReference` uniqueness) makes the
insert error when a row with the same hash is already visible — the TS
function surfaces any insert error as a `DatabaseError`.  `visibleTips` is
the table at insert time, which may contain rows committed by concurrent
requests after this request's idempotency check. -/
def createTip (visibleTips : List Tip) (confessionId tipperAddress : String)
    (amount : ℚ) (transactionHash freshId : String) (now : Int) :
    Except String Tip :=
  if visibleTips.any (fun t => t.transaction_hash == transactionHash) then
    .error "Failed to create tip: duplicate key value violates unique constraint"
  else
    .ok ⟨freshId, confessionId, tipperAddress, amount, transactionHash, now⟩

/-! ## Confession store (src/lib/db/confessions.ts, SQL update_confession_tips) -/

/-- `getConfessionById`: `.eq("id", i).single()`, `null` on no match. -/
def getConfessionById (cs : List Confession) (i : String) : Option Confession :=
  cs.find? fun c => c.id == i

/-- The SQL function `update_confession_tips`: a single atomic
`UPDATE confessions SET total_tips = total_tips + amt, tip_count = tip_count + 1
WHERE id = cid`. -/
def update_confession_tips (cs : List Confession) (cid : String) (amt : ℚ) :
    List Confession :=
  cs.map fun c =>
    if c.id == cid then
      { c with total_tips := c.total_tips + amt, tip_count := c.tip_count + 1 }
    else c

/-- `updateConfessionTips`: run the RPC, then re-fetch the updated row;
`none` models the re-fetch finding no row (a `DatabaseError` in TS). -/
def updateConfessionTips (cs : List Confession) (cid : String) (amt : ℚ) :
    Option (Confession × List Confession) :=
  let cs2 := update_confession_tips cs cid amt
  (getConfessionById cs2 cid).map fun c => (c, cs2)

/-! ## User store (src/lib/db/users.ts, SQL increment_user_tips_*) -/

/-- `generateReferralCode`: `"REF"` + last 8 characters of the address,
upper-cased. -/
def generateReferralCode (address : String) : String :=
  "REF" ++ toUpperCase ⟨address.data.drop (address.data.length - 8)⟩

/-- `getOrCreateUser`: look up by address; insert a fresh row (statistics
default to 0) when absent. -/
def getOrCreateUser (users : List User) (address : String) : List User :=
  if users.any (fun u => u.address == address) then users
  else users ++ [⟨address, 0, 0, generateReferralCode address⟩]

/-- The SQL function `increment_user_tips_given`: atomic
`UPDATE users SET total_tips_given = total_tips_given + amt WHERE address = a`. -/
def increment_user_tips_given (users : List User) (a : String) (amt : ℚ) :
    List User :=
  users.map fun u =>
    if u.address == a then { u with total_tips_given := u.total_tips_given + amt }
    else u

/-- The SQL function `increment_user_tips_received`: atomic
`UPDATE users SET total_tips_received = total_tips_received + amt WHERE address = a`. -/
def increment_user_tips_received (users : List User) (a : String) (amt : ℚ) :
    List User :=
  users.map fun u =>
    if u.address == a then
      { u with total_tips_received := u.total_tips_received + amt }
    else u

/-! ## Rate limiter (src/lib/utils/rateLimit.ts) -/

structure RateLimitConfig where
  maxRequests : Nat
  windowMs : Int
  deriving DecidableEq, Repr

/-- `RATE_LIMITS.tip`: 50 tips per 24 hours (86 400 000 ms). -/
def RATE_LIMITS_tip : RateLimitConfig := { maxRequests := 50, windowMs := 86400000 }

/-- The count query of the `"tip"` branch of `checkRateLimit`: rows of
`tips` with this `tipper_address` and `created_at ≥ windowStart`. -/
def tipCountSince (tips : List Tip) (addr : String) (windowStart : Int) : Nat :=
  (tips.filter fun t => t.tipper_address == addr && windowStart ≤ t.created_at).length

/-- `checkRateLimit(userAddress, "tip", config)`: counts the user's tips
created in the trailing `windowMs`; on a store error it logs and returns
`true` (fail open); when the count reaches `maxRequests` it throws a
`RateLimitError` (modelled as `.error` carrying the message); otherwise it
returns `true`.  `store` is the `tips` table handle, `.error` modelling the
count query failing. -/
def checkRateLimit (store : Except String (List Tip)) (userAddress : String)
    (config : RateLimitConfig) (now : Int) : Except String Bool :=
  let windowStart := now - config.windowMs
  match store with
  | .error _ => .ok true
  | .ok tips =>
    if config.maxRequests ≤ tipCountSince tips userAddress windowStart then
      .error ("Rate limit exceeded. Maximum " ++ toString config.maxRequests
        ++ " tips per day.")
    else .ok true

/-! ## Chain verification (the on-chain block of POST in src/app/api/tips/route.ts) -/

/-- The keccak hash of `Transfer(address,address,uint256)` fixed in the route. -/
def TRANSFER_TOPIC : String :=
  "0xddf252ad1be2c89b69c2b068fc378daa952ba7f163c4a11628f55a4df523b3ef"

/-- `receipt.logs.find(...)`: first log emitted by the USDC contract
(case-insensitive address compare) whose first topic is the Transfer
signature. -/
def findTransferLog (logs : List LogEntry) (usdcAddress : String) :
    Option LogEntry :=
  logs.find? fun log =>
    toLowerCase log.address == toLowerCase usdcAddress
      && log.topics.head? == some TRANSFER_TOPIC

/-- Outcome of the on-chain verification block: the computed `tipAmount`, or
the response the route produces when a check fails. -/
inductive VerifyResult where
  | ok (amount : ℚ)
  | failure (status : Nat) (error : String)
  deriving DecidableEq, Repr

/-- The on-chain verification block of the route, in source order: fetch the
transaction, fetch the receipt and require `status === "success"`, require
the configured USDC address (a plain `Error`, hence a 500, when missing),
require `transaction.to` to be the USDC contract (case-insensitive), find the
Transfer log, decode it (`decodeEventLog` throwing on malformed data is a
plain viem error, hence a 500), require the decoded sender to equal the
tipper case-insensitively, compute `tipAmount = value / 1_000_000` and
require `0.001 ≤ tipAmount ≤ 1`. -/
def verifyPayment (env : ChainEnv) (tipper_address transaction_hash : String) :
    VerifyResult :=
  match env.getTransaction transaction_hash with
  | none => .failure 400 "Transaction not found on Base network"
  | some transaction =>
    match env.getTransactionReceipt transaction_hash with
    | none => .failure 400 "Transaction not confirmed or failed"
    | some receipt =>
      if receipt.status != "success" then
        .failure 400 "Transaction not confirmed or failed"
      else
        match env.usdcAddress with
        | none => .failure 500 "An unexpected error occurred"
        | some usdcAddress =>
          if transaction.toAddr.map toLowerCase != some (toLowerCase usdcAddress) then
            .failure 400 "Transaction is not a USDC transfer"
          else
            match findTransferLog receipt.logs usdcAddress with
            | none => .failure 400 "No USDC transfer found in transaction"
            | some transferLog =>
              match env.decodeTransferLog transferLog with
              | none => .failure 500 "An unexpected error occurred"
              | some decoded =>
                if toLowerCase decoded.fromAddr != toLowerCase tipper_address then
                  .failure 400 "Transaction sender does not match tipper address"
                else
                  let tipAmount : ℚ := (decoded.value : ℚ) / 1000000
                  if tipAmount < 1 / 1000 ∨ 1 < tipAmount then
                    .failure 400 "Tip amount must be between 0.001 and 1 USDC"
                  else .ok tipAmount

/-! ## The POST /api/tips handler -/

/-- `POST /api/tips` as a function of the request body, the datastore, and
the environment.  `race` is the set of tip rows committed by concurrent
requests between this request's idempotency check and its insert; it is
visible to the insert's uniqueness constraint only (those rows belong to the
other writers, so they are not part of this invocation's returned state).
Thrown `ValidationError`s map to 400, `RateLimitError`s to 429,
`DatabaseError`s to 500 "Database error occurred", and anything else to
500 "An unexpected error occurred", as in the route's catch block. -/
def postTip (db : DbState) (env : ChainEnv) (race : List Tip)
    (body : CreateTipRequest) : TipResponse × DbState :=
  if isMissing body.confession_id || isMissing body.tipper_address
      || isMissing body.transaction_hash then
    (.failure 400 "Missing required fields: confession_id, tipper_address, transaction_hash", db)
  else
    let confession_id := body.confession_id.getD ""
    let tipper_address := body.tipper_address.getD ""
    let transaction_hash := body.transaction_hash.getD ""
    if !(isAddressFormat tipper_address && isTxHashFormat transaction_hash) then
      (.failure 400 "Invalid address or transaction hash format", db)
    else
      match getTipByTransactionHash db.tips transaction_hash with
      | some _ => (.failure 409 "Tip already processed for this transaction", db)
      | none =>
        let store : Except String (List Tip) :=
          if env.rateStoreError then .error "rate limit store unavailable"
          else .ok db.tips
        match checkRateLimit store tipper_address RATE_LIMITS_tip env.now with
        | .error msg => (.failure 429 msg, db)
        | .ok _ =>
          match getConfessionById db.confessions confession_id with
          | none => (.failure 400 "Confession not found", db)
          | some confession =>
            if toLowerCase confession.author_address == toLowerCase tipper_address then
              (.failure 400 "Cannot tip your own confession", db)
            else
              match verifyPayment env tipper_address transaction_hash with
              | .failure st msg => (.failure st msg, db)
              | .ok tipAmount =>
                let users1 :=
                  getOrCreateUser (getOrCreateUser db.users tipper_address)
                    confession.author_address
                let db1 : DbState := { db with users := users1 }
                match createTip (db.tips ++ race) confession_id tipper_address
                    tipAmount transaction_hash env.freshTipId env.now with
                | .error _ => (.failure 500 "Database error occurred", db1)
                | .ok tip =>
                  let db2 : DbState := { db1 with tips := db1.tips ++ [tip] }
                  match updateConfessionTips db2.confessions confession_id tipAmount with
                  | none => (.failure 500 "Database error occurred", db2)
                  | some (updatedConfession, confessions2) =>
                    let users2 :=
                      increment_user_tips_given db2.users tipper_address tipAmount
                    let users3 :=
                      increment_user_tips_received users2 confession.author_address
                        tipAmount
                    (.success tip updatedConfession,
                      { db2 with confessions := confessions2, users := users3 })

/-- Sequential invocations of the route (no races, one environment),
threading the store and collecting the responses. -/
def runSeq (env : ChainEnv) : DbState → List CreateTipRequest →
    DbState × List TipResponse
  | db, [] => (db, [])
  | db, r :: rs =>
    let step := postTip db env [] r
    let rest := runSeq env step.2 rs
    (rest.1, step.1 :: rest.2)

/-! ## Observation helpers -/

/-- `total_tips` of the subject, 0 when absent. -/
def confTotal (db : DbState) (cid : String) : ℚ :=
  ((getConfessionById db.confessions cid).map Confession.total_tips).getD 0

/-- `tip_count` of the subject, 0 when absent. -/
def confCount (db : DbState) (cid : String) : Nat :=
  ((getConfessionById db.confessions cid).map Confession.tip_count).getD 0

/-- `author_address` of the subject, `""` when absent. -/
def confOwner (db : DbState) (cid : String) : String :=
  ((getConfessionById db.confessions cid).map Confession.author_address).getD ""

/-- `total_tips_given` of a user row of a user list, 0 when absent. -/
def givenOf (users : List User) (a : String) : ℚ :=
  ((users.find? fun u => u.address == a).map User.total_tips_given).getD 0

/-- `total_tips_received` of a user row of a user list, 0 when absent. -/
def receivedOf (users : List User) (a : String) : ℚ :=
  ((users.find? fun u => u.address == a).map User.total_tips_received).getD 0

/-- `total_tips_given` of a user row, 0 when absent. -/
def userGiven (db : DbState) (a : String) : ℚ := givenOf db.users a

/-- `total_tips_received` of a user row, 0 when absent. -/
def userReceived (db : DbState) (a : String) : ℚ := receivedOf db.users a

/-- The tip row a successful run inserts. -/
def mkTip (env : ChainEnv) (body : CreateTipRequest) (amt : ℚ) : Tip :=
  { id := env.freshTipId, confession_id := body.confession_id.getD ""
    tipper_address := body.tipper_address.getD "", amount := amt
    transaction_hash := body.transaction_hash.getD "", created_at := env.now }

/-- The subject row after the aggregate update of one admitted tip. -/
def bumpConfession (c : Confession) (amt : ℚ) : Confession :=
  { c with total_tips := c.total_tips + amt, tip_count := c.tip_count + 1 }

/-- The datastore after a successful run. -/
def successState (db : DbState) (env : ChainEnv) (body : CreateTipRequest)
    (owner : String) (amt : ℚ) : DbState :=
  { tips := db.tips ++ [mkTip env body amt]
    confessions :=
      update_confession_tips db.confessions (body.confession_id.getD "") amt
    users :=
      increment_user_tips_received
        (increment_user_tips_given
          (getOrCreateUser (getOrCreateUser db.users (body.tipper_address.getD ""))
            owner)
          (body.tipper_address.getD "") amt)
        owner amt }

/-- The amounts of the successful responses of a run. -/
def successAmounts (rs : List TipResponse) : ℚ :=
  (rs.map fun r => match r with
    | .success t _ => t.amount
    | .failure _ _ => 0).sum

def isSuccess : TipResponse → Bool
  | .success _ _ => true
  | .failure _ _ => false

/-! ## A concrete scenario, used to instantiate the theorems -/

/-- Owner (author) address of the example confession. -/
def exOwner : String := "0xaaaaaaaaaaaaaaaaaaaaaaaaaaaaaaaaaaaaaaaa"

/-- Payer address of the example requests. -/
def exTipper : String := "0xbbbbbbbbbbbbbbbbbbbbbbbbbbbbbbbbbbbbbbbb"

/-- The configured USDC contract address. -/
def exUsdc : String := "0x833589fcd6edb6e08f4c7c32d4f71b54bda02913"

/-- The claimed transaction hash. -/
def exHash : String :=
  "0x1111111111111111111111111111111111111111111111111111111111111111"

def exConfession : Confession :=
  { id := "conf-1", text := "hello", category := "funny"
    author_address := exOwner, total_tips := 0, tip_count := 0 }

def exDb : DbState := { tips := [], confessions := [exConfession], users := [] }

def exLog : LogEntry :=
  { address := exUsdc, topics := [TRANSFER_TOPIC], data := "0xdata" }

/-- A healthy environment in which `exHash` is a confirmed USDC transfer of
50 000 raw units (0.05 USDC) from `exTipper`. -/
def exEnv : ChainEnv :=
  { getTransaction := fun h =>
      if h == exHash then some { toAddr := some exUsdc } else none
    getTransactionReceipt := fun h =>
      if h == exHash then some { status := "success", logs := [exLog] } else none
    decodeTransferLog := fun l =>
      if l == exLog then
        some { fromAddr := exTipper, toRecipient := exOwner, value := 50000 }
      else none
    usdcAddress := some exUsdc
    rateStoreError := false
    now := 1000
    freshTipId := "tip-1" }

def exBody : CreateTipRequest :=
  { confession_id := some "conf-1", tipper_address := some exTipper
    transaction_hash := some exHash }

/-- The tip row the example success inserts. -/
def exTip : Tip :=
  { id := "tip-1", confession_id := "conf-1", tipper_address := exTipper
    amount := 1/20, transaction_hash := exHash, created_at := 1000 }

/-- The example confession after one 0.05 tip. -/
def exConfessionAfter : Confession :=
  { exConfession with total_tips := 1/20, tip_count := 1 }

/-- The payer row after the example success. -/
def exUserB : User :=
  { address := exTipper, total_tips_given := 1/20, total_tips_received := 0
    referral_code := "REFBBBBBBBB" }

/-- The owner row after the example success. -/
def exUserA : User :=
  { address := exOwner, total_tips_given := 0, total_tips_received := 1/20
    referral_code := "REFAAAAAAAA" }

/-- The datastore after the example success. -/
def exDbAfter : DbState :=
  { tips := [exTip], confessions := [exConfessionAfter]
    users := [exUserB, exUserA] }

/-- A previously recorded tip with the same reference as `exBody`. -/
def exDupTip : Tip :=
  { id := "tip-0", confession_id := "conf-1", tipper_address := exTipper
    amount := 1/100, transaction_hash := exHash, created_at := 500 }

/-- A store in which `exHash` was already processed. -/
def exDbDup : DbState :=
  { tips := [exDupTip], confessions := [exConfession], users := [] }

/-- Request body claiming the tip comes from the confession owner. -/
def c3Body : CreateTipRequest :=
  { confession_id := some "conf-1", tipper_address := some exOwner
    transaction_hash := some exHash }

/-- The store after a run that created the two user rows but failed the
ledger insert: both rows exist with zero statistics. -/
def exDbUsersOnly : DbState :=
  { exDb with users :=
      [{ address := exTipper, total_tips_given := 0, total_tips_received := 0
         referral_code := "REFBBBBBBBB" },
       { address := exOwner, total_tips_given := 0, total_tips_received := 0
         referral_code := "REFAAAAAAAA" }] }

/-- An environment in which the decoded sender is the owner, not the
claimed payer. -/
def exEnvMismatch : ChainEnv :=
  { exEnv with decodeTransferLog := (fun l =>
      if l == exLog then
        some { fromAddr := exOwner, toRecipient := exOwner, value := 50000 }
      else none) }

/-- `exEnv` with the decoded raw transfer value replaced by `v`. -/
def exEnvVal (v : Nat) : ChainEnv :=
  { exEnv with decodeTransferLog := (fun l =>
      if l == exLog then
        some { fromAddr := exTipper, toRecipient := exOwner, value := v }
      else none) }

/-- An environment in which the transaction cannot be found. -/
def exEnvNoTx : ChainEnv := { exEnv with getTransaction := fun _ => none }

/-- An environment in which the receipt cannot be found. -/
def exEnvNoReceipt : ChainEnv :=
  { exEnv with getTransactionReceipt := fun _ => none }

/-- An environment in which the transaction reverted. -/
def exEnvRevert : ChainEnv :=
  { exEnv with getTransactionReceipt := (fun h =>
      if h == exHash then some { status := "reverted", logs := [exLog] }
      else none) }

/-- An environment in which the transaction paid a non-USDC contract. -/
def exEnvWrongTo : ChainEnv :=
  { exEnv with getTransaction := (fun h =>
      if h == exHash then
        some { toAddr := some "0xcccccccccccccccccccccccccccccccccccccccc" }
      else none) }

/-- An environment in which the receipt carries no Transfer log. -/
def exEnvNoLog : ChainEnv :=
  { exEnv with getTransactionReceipt := (fun h =>
      if h == exHash then some { status := "success", logs := [] } else none) }

/-- An environment in which the matched Transfer log fails to decode. -/
def exEnvBadDecode : ChainEnv :=
  { exEnv with decodeTransferLog := fun _ => none }

/-- An environment in which the rate-limit count query errors. -/
def exEnvStoreErr : ChainEnv := { exEnv with rateStoreError := true }

/-! ## The fixed-window rate limiter claimed by the spec -/

/-- Modelled from the spec (§4.5 RateWindow): per-(actor, action) state of
the claimed fixed-window counter. -/
structure RateWindow where
  count : Nat
  windowResetAt : Int
  deriving DecidableEq, Repr

/-- Modelled from the spec (§4.5): one check of the claimed fixed-window
counter.  On first check, or after the window has elapsed, reset
`count = 0` and set `windowResetAt = now + windowDurationMs`; if
`count >= maxPerWindow` reject; otherwise increment `count` and admit.
Returns the new state and whether the request was admitted. -/
def fixedWindowCheck (st : Option RateWindow) (now windowMs : Int)
    (maxPerWindow : Nat) : Option RateWindow × Bool :=
  let w : RateWindow :=
    match st with
    | none => { count := 0, windowResetAt := now + windowMs }
    | some w =>
      if w.windowResetAt ≤ now then { count := 0, windowResetAt := now + windowMs }
      else w
  if maxPerWindow ≤ w.count then (some w, false)
  else (some { w with count := w.count + 1 }, true)

/-- Modelled from the spec: the claimed fixed-window counter run over a
list of check times, collecting the admit decisions. -/
def runFixedWindow (windowMs : Int) (maxPerWindow : Nat) :
    Option RateWindow → List Int → Option RateWindow × List Bool
  | st, [] => (st, [])
  | st, t :: ts =>
    let step := fixedWindowCheck st t windowMs maxPerWindow
    let rest := runFixedWindow windowMs maxPerWindow step.1 ts
    (rest.1, step.2 :: rest.2)

/-- A recorded tip by `exTipper` at time `t` (reference and amount are
irrelevant to the rate-limit count). -/
def c8Tip (t : Int) : Tip :=
  { id := "t", confession_id := "conf-1", tipper_address := exTipper
    amount := 1/100, transaction_hash := "0xother", created_at := t }

/-- 51 admitted tips: one at t=10, 49 at t=80000000, one at t=86400011. -/
def c8Tips : List Tip :=
  c8Tip 10 :: (List.replicate 49 (c8Tip 80000000) ++ [c8Tip 86400011])

/-- The corresponding check times, followed by one more check at
t=86400012. -/
def c8Times : List Int :=
  10 :: (List.replicate 49 80000000 ++ [86400011, 86400012])

/-- A store holding 50 recent tips by `exTipper`. -/
def c8Db : DbState :=
  { tips := List.replicate 50 (c8Tip 999), confessions := [exConfession]
    users := [] }

/-! ## Infrastructure lemmas -/

theorem find?_map_pres {α : Type} (p : α → Bool) (f : α → α)
    (hp : ∀ x, p (f x) = p x) (l : List α) :
    (l.map f).find? p = (l.find? p).map f := by
  induction l with
  | nil => rfl
  | cons x xs ih =>
    rw [List.map_cons, List.find?_cons, List.find?_cons, hp]
    cases h : p x
    · simpa using ih
    · simp

theorem find?_map_comm {α β : Type} (p : α → Bool) (f : α → α) (g : α → β)
    (hp : ∀ x, p (f x) = p x) (hg : ∀ x, g (f x) = g x) (l : List α) :
    ((l.map f).find? p).map g = (l.find? p).map g := by
  rw [find?_map_pres p f hp]
  cases h : l.find? p with
  | none => rfl
  | some x => simp [hg]

theorem getConfessionById_update (cs : List Confession) (cid : String) (amt : ℚ) :
    getConfessionById (update_confession_tips cs cid amt) cid =
      (getConfessionById cs cid).map fun c =>
        { c with total_tips := c.total_tips + amt, tip_count := c.tip_count + 1 } := by
  unfold getConfessionById update_confession_tips
  rw [find?_map_pres]
  · cases hf : cs.find? (fun c => c.id == cid) with
    | none => rfl
    | some c =>
      have hc := List.find?_some hf
      simp only [beq_iff_eq] at hc
      simp [hc]
  · intro x; by_cases h : x.id = cid <;> simp [h]

theorem find?_increment_given (users : List User) (a : String) (amt : ℚ) :
    (increment_user_tips_given users a amt).find? (fun u => u.address == a) =
      (users.find? fun u => u.address == a).map fun u =>
        { u with total_tips_given := u.total_tips_given + amt } := by
  unfold increment_user_tips_given
  rw [find?_map_pres]
  · cases hf : users.find? (fun u => u.address == a) with
    | none => rfl
    | some u =>
      have hu := List.find?_some hf
      simp only [beq_iff_eq] at hu
      simp [hu]
  · intro x; by_cases h : x.address = a <;> simp [h]

theorem find?_increment_received (users : List User) (a : String) (amt : ℚ) :
    (increment_user_tips_received users a amt).find? (fun u => u.address == a) =
      (users.find? fun u => u.address == a).map fun u =>
        { u with total_tips_received := u.total_tips_received + amt } := by
  unfold increment_user_tips_received
  rw [find?_map_pres]
  · cases hf : users.find? (fun u => u.address == a) with
    | none => rfl
    | some u =>
      have hu := List.find?_some hf
      simp only [beq_iff_eq] at hu
      simp [hu]
  · intro x; by_cases h : x.address = a <;> simp [h]

theorem received_after_increment_given (users : List User) (a b : String) (amt : ℚ) :
    ((increment_user_tips_given users a amt).find? (fun u => u.address == b)).map
        User.total_tips_received =
      (users.find? fun u => u.address == b).map User.total_tips_received := by
  unfold increment_user_tips_given
  rw [find?_map_comm]
  · intro x; by_cases h : x.address = a <;> simp [h]
  · intro x; by_cases h : x.address = a <;> simp [h]

theorem given_after_increment_received (users : List User) (a b : String) (amt : ℚ) :
    ((increment_user_tips_received users a amt).find? (fun u => u.address == b)).map
        User.total_tips_given =
      (users.find? fun u => u.address == b).map User.total_tips_given := by
  unfold increment_user_tips_received
  rw [find?_map_comm]
  · intro x; by_cases h : x.address = a <;> simp [h]
  · intro x; by_cases h : x.address = a <;> simp [h]



theorem givenOf_getOrCreateUser (users : List User) (b a : String) :
    givenOf (getOrCreateUser users b) a = givenOf users a := by
  unfold givenOf getOrCreateUser
  split
  · rfl
  · rw [List.find?_append]
    cases h : users.find? (fun u => u.address == a) with
    | some u => simp
    | none =>
      by_cases hab : b = a <;> simp [List.find?_cons, hab]

theorem receivedOf_getOrCreateUser (users : List User) (b a : String) :
    receivedOf (getOrCreateUser users b) a = receivedOf users a := by
  unfold receivedOf getOrCreateUser
  split
  · rfl
  · rw [List.find?_append]
    cases h : users.find? (fun u => u.address == a) with
    | some u => simp
    | none =>
      by_cases hab : b = a <;> simp [List.find?_cons, hab]

theorem present_getOrCreateUser (users : List User) (a : String) :
    ((getOrCreateUser users a).find? fun u => u.address == a).isSome = true := by
  unfold getOrCreateUser
  split
  case isTrue h =>
    simp only [List.any_eq_true] at h
    obtain ⟨u, hu, hp⟩ := h
    simp only [List.find?_isSome]
    exact ⟨u, hu, hp⟩
  case isFalse h =>
    simp [List.find?_isSome]

theorem present_mono_getOrCreateUser (users : List User) (b : String)
    (p : User → Bool) (h : (users.find? p).isSome = true) :
    ((getOrCreateUser users b).find? p).isSome = true := by
  unfold getOrCreateUser
  split
  · exact h
  · rw [List.find?_append]
    cases hf : users.find? p with
    | some u => simp
    | none => rw [hf] at h; simp at h

theorem givenOf_increment_given (users : List User) (a : String) (amt : ℚ)
    (h : (users.find? fun u => u.address == a).isSome = true) :
    givenOf (increment_user_tips_given users a amt) a = givenOf users a + amt := by
  unfold givenOf
  rw [find?_increment_given]
  cases hf : users.find? (fun u => u.address == a) with
  | some u => simp
  | none => rw [hf] at h; simp at h

theorem receivedOf_increment_received (users : List User) (a : String) (amt : ℚ)
    (h : (users.find? fun u => u.address == a).isSome = true) :
    receivedOf (increment_user_tips_received users a amt) a =
      receivedOf users a + amt := by
  unfold receivedOf
  rw [find?_increment_received]
  cases hf : users.find? (fun u => u.address == a) with
  | some u => simp
  | none => rw [hf] at h; simp at h

theorem receivedOf_increment_given (users : List User) (b a : String) (amt : ℚ) :
    receivedOf (increment_user_tips_given users b amt) a = receivedOf users a := by
  unfold receivedOf increment_user_tips_given
  rw [find?_map_comm]
  · intro x; by_cases h : x.address = b <;> simp [h]
  · intro x; by_cases h : x.address = b <;> simp [h]

theorem givenOf_increment_received (users : List User) (b a : String) (amt : ℚ) :
    givenOf (increment_user_tips_received users b amt) a = givenOf users a := by
  unfold givenOf increment_user_tips_received
  rw [find?_map_comm]
  · intro x; by_cases h : x.address = b <;> simp [h]
  · intro x; by_cases h : x.address = b <;> simp [h]

theorem present_increment_given (users : List User) (b : String) (amt : ℚ)
    (p : User → Bool) (hp : ∀ u,
      p { u with total_tips_given := u.total_tips_given + amt } = p u)
    (h : (users.find? p).isSome = true) :
    ((increment_user_tips_given users b amt).find? p).isSome = true := by
  unfold increment_user_tips_given
  rw [find?_map_pres]
  · cases hf : users.find? p with
    | some u => simp
    | none => rw [hf] at h; simp at h
  · intro x
    by_cases hx : (x.address == b) = true
    · rw [if_pos hx]; exact hp x
    · rw [if_neg hx]



/-- One run of the route either fails — leaving the tips and confessions
tables untouched (a failed insert may still have created user rows) — or
passes every check and produces exactly the insert, the subject bump, and
the two user increments. -/
theorem postTip_cases (db : DbState) (env : ChainEnv) (race : List Tip)
    (body : CreateTipRequest) :
    (∃ st msg db2,
      postTip db env race body = (.failure st msg, db2) ∧
      db2.tips = db.tips ∧ db2.confessions = db.confessions) ∨
    (∃ c0 amt,
      (isMissing body.confession_id || isMissing body.tipper_address
        || isMissing body.transaction_hash) = false ∧
      (isAddressFormat (body.tipper_address.getD "")
        && isTxHashFormat (body.transaction_hash.getD "")) = true ∧
      getTipByTransactionHash db.tips (body.transaction_hash.getD "") = none ∧
      ((db.tips ++ race).any fun t =>
        t.transaction_hash == body.transaction_hash.getD "") = false ∧
      getConfessionById db.confessions (body.confession_id.getD "") = some c0 ∧
      (toLowerCase c0.author_address == toLowerCase (body.tipper_address.getD ""))
        = false ∧
      verifyPayment env (body.tipper_address.getD "")
        (body.transaction_hash.getD "") = .ok amt ∧
      postTip db env race body =
        (.success (mkTip env body amt) (bumpConfession c0 amt),
          successState db env body c0.author_address amt)) := by
  by_cases h1 : (isMissing body.confession_id || isMissing body.tipper_address
      || isMissing body.transaction_hash) = true
  · exact .inl ⟨400,
      "Missing required fields: confession_id, tipper_address, transaction_hash",
      db, by simp [postTip, h1], rfl, rfl⟩
  by_cases h2 : (isAddressFormat (body.tipper_address.getD "")
      && isTxHashFormat (body.transaction_hash.getD "")) = true
  case neg =>
    exact .inl ⟨400, "Invalid address or transaction hash format", db,
      by simp [postTip, h1, h2], rfl, rfl⟩
  case pos =>
  cases hdup : getTipByTransactionHash db.tips (body.transaction_hash.getD "") with
  | some t =>
    exact .inl ⟨409, "Tip already processed for this transaction", db,
      by simp [postTip, h1, h2, hdup], rfl, rfl⟩
  | none =>
  cases hrl : checkRateLimit
      (if env.rateStoreError then Except.error "rate limit store unavailable"
       else Except.ok db.tips)
      (body.tipper_address.getD "") RATE_LIMITS_tip env.now with
  | error msg =>
    exact .inl ⟨429, msg, db, by simp [postTip, h1, h2, hdup, hrl], rfl, rfl⟩
  | ok b =>
  cases hconf : getConfessionById db.confessions (body.confession_id.getD "") with
  | none =>
    exact .inl ⟨400, "Confession not found", db,
      by simp [postTip, h1, h2, hdup, hrl, hconf], rfl, rfl⟩
  | some c0 =>
  by_cases hself : (toLowerCase c0.author_address
      == toLowerCase (body.tipper_address.getD "")) = true
  · exact .inl ⟨400, "Cannot tip your own confession", db,
      by simp [postTip, h1, h2, hdup, hrl, hconf, hself], rfl, rfl⟩
  cases hver : verifyPayment env (body.tipper_address.getD "")
      (body.transaction_hash.getD "") with
  | failure st msg =>
    exact .inl ⟨st, msg, db,
      by simp [postTip, h1, h2, hdup, hrl, hconf, hself, hver], rfl, rfl⟩
  | ok amt =>
  by_cases hins : ((db.tips ++ race).any fun t =>
      t.transaction_hash == body.transaction_hash.getD "") = true
  · refine .inl ⟨500, "Database error occurred",
      ({ db with users := (getOrCreateUser
          (getOrCreateUser db.users (body.tipper_address.getD ""))
          c0.author_address) } : DbState),
      ?_, rfl, rfl⟩
    simp [postTip, h1, h2, hdup, hrl, hconf, hself, hver, createTip, hins]
  refine .inr ⟨c0, amt, by simpa using h1, h2, rfl, by simpa using hins,
    rfl, by simpa using hself, rfl, ?_⟩
  simp [postTip, h1, h2, hdup, hrl, hconf, hself, hver, createTip, hins,
    updateConfessionTips, getConfessionById_update, successState, mkTip,
    bumpConfession]

theorem postTip_success_inv (db : DbState) (env : ChainEnv) (body : CreateTipRequest)
    (tip : Tip) (conf : Confession) (db' : DbState)
    (h : postTip db env [] body = (.success tip conf, db')) :
    ∃ c0,
      (isMissing body.confession_id || isMissing body.tipper_address
        || isMissing body.transaction_hash) = false ∧
      (isAddressFormat (body.tipper_address.getD "")
        && isTxHashFormat (body.transaction_hash.getD "")) = true ∧
      getTipByTransactionHash db.tips (body.transaction_hash.getD "") = none ∧
      getConfessionById db.confessions (body.confession_id.getD "") = some c0 ∧
      (toLowerCase c0.author_address == toLowerCase (body.tipper_address.getD ""))
        = false ∧
      verifyPayment env (body.tipper_address.getD "")
        (body.transaction_hash.getD "") = .ok tip.amount ∧
      tip = mkTip env body tip.amount ∧
      conf = bumpConfession c0 tip.amount ∧
      db' = successState db env body c0.author_address tip.amount := by
  rcases postTip_cases db env [] body with ⟨st, msg, db2, he, _, _⟩ |
    ⟨c0, amt, hmiss, hfmt, hdup, hrace, hconf, hself, hver, he⟩
  · rw [he] at h; simp at h
  · rw [he] at h
    simp only [Prod.mk.injEq, TipResponse.success.injEq] at h
    obtain ⟨⟨ht, hc⟩, hd⟩ := h
    subst ht; subst hc; subst hd
    exact ⟨c0, hmiss, hfmt, hdup, hconf, hself, by simpa [mkTip] using hver,
      by simp [mkTip], by simp [mkTip], by simp [mkTip]⟩

/-- A well-formed request whose reference is already in the ledger is
answered 409 before any further processing, with the store untouched. -/
theorem postTip_dup (db : DbState) (env : ChainEnv) (race : List Tip)
    (body : CreateTipRequest) (t : Tip)
    (hmiss : (isMissing body.confession_id || isMissing body.tipper_address
      || isMissing body.transaction_hash) = false)
    (hfmt : (isAddressFormat (body.tipper_address.getD "")
      && isTxHashFormat (body.transaction_hash.getD "")) = true)
    (hdup : getTipByTransactionHash db.tips (body.transaction_hash.getD "")
      = some t) :
    postTip db env race body =
      (.failure 409 "Tip already processed for this transaction", db) := by
  simp [postTip, hmiss, hfmt, hdup]

/-- A self-tip that reaches the ownership check is answered 400 with the
fixed message, with the store untouched. -/
theorem postTip_selfTip (db : DbState) (env : ChainEnv) (race : List Tip)
    (body : CreateTipRequest) (c0 : Confession)
    (hmiss : (isMissing body.confession_id || isMissing body.tipper_address
      || isMissing body.transaction_hash) = false)
    (hfmt : (isAddressFormat (body.tipper_address.getD "")
      && isTxHashFormat (body.transaction_hash.getD "")) = true)
    (hdup : getTipByTransactionHash db.tips (body.transaction_hash.getD "") = none)
    (hrl : checkRateLimit
      (if env.rateStoreError then Except.error "rate limit store unavailable"
       else Except.ok db.tips)
      (body.tipper_address.getD "") RATE_LIMITS_tip env.now = .ok true)
    (hconf : getConfessionById db.confessions (body.confession_id.getD "")
      = some c0)
    (hself : toLowerCase c0.author_address
      = toLowerCase (body.tipper_address.getD "")) :
    postTip db env race body =
      (.failure 400 "Cannot tip your own confession", db) := by
  simp [postTip, hmiss, hfmt, hdup, hrl, hconf, hself]

/-- A chain-verification failure propagates to the caller with its status
and message, with the store untouched. -/
theorem postTip_verify_fail (db : DbState) (env : ChainEnv) (race : List Tip)
    (body : CreateTipRequest) (c0 : Confession) (st : Nat) (msg : String)
    (hmiss : (isMissing body.confession_id || isMissing body.tipper_address
      || isMissing body.transaction_hash) = false)
    (hfmt : (isAddressFormat (body.tipper_address.getD "")
      && isTxHashFormat (body.transaction_hash.getD "")) = true)
    (hdup : getTipByTransactionHash db.tips (body.transaction_hash.getD "") = none)
    (hrl : checkRateLimit
      (if env.rateStoreError then Except.error "rate limit store unavailable"
       else Except.ok db.tips)
      (body.tipper_address.getD "") RATE_LIMITS_tip env.now = .ok true)
    (hconf : getConfessionById db.confessions (body.confession_id.getD "")
      = some c0)
    (hself : (toLowerCase c0.author_address
      == toLowerCase (body.tipper_address.getD "")) = false)
    (hver : verifyPayment env (body.tipper_address.getD "")
      (body.transaction_hash.getD "") = .failure st msg) :
    postTip db env race body = (.failure st msg, db) := by
  simp [postTip, hmiss, hfmt, hdup, hrl, hconf, hself, hver]

/-- A run that passes every check, with no competing insert, succeeds and
produces exactly the insert, the bump, and the two user increments. -/
theorem postTip_verify_ok (db : DbState) (env : ChainEnv) (race : List Tip)
    (body : CreateTipRequest) (c0 : Confession) (amt : ℚ)
    (hmiss : (isMissing body.confession_id || isMissing body.tipper_address
      || isMissing body.transaction_hash) = false)
    (hfmt : (isAddressFormat (body.tipper_address.getD "")
      && isTxHashFormat (body.transaction_hash.getD "")) = true)
    (hdup : getTipByTransactionHash db.tips (body.transaction_hash.getD "") = none)
    (hrace : ((db.tips ++ race).any fun t =>
      t.transaction_hash == body.transaction_hash.getD "") = false)
    (hrl : checkRateLimit
      (if env.rateStoreError then Except.error "rate limit store unavailable"
       else Except.ok db.tips)
      (body.tipper_address.getD "") RATE_LIMITS_tip env.now = .ok true)
    (hconf : getConfessionById db.confessions (body.confession_id.getD "")
      = some c0)
    (hself : (toLowerCase c0.author_address
      == toLowerCase (body.tipper_address.getD "")) = false)
    (hver : verifyPayment env (body.tipper_address.getD "")
      (body.transaction_hash.getD "") = .ok amt) :
    postTip db env race body =
      (.success (mkTip env body amt) (bumpConfession c0 amt),
        successState db env body c0.author_address amt) := by
  simp [postTip, hmiss, hfmt, hdup, hrl, hconf, hself, hver, createTip, hrace,
    updateConfessionTips, getConfessionById_update, successState, mkTip,
    bumpConfession]

/-- A lost insert race surfaces as a `DatabaseError`, answered 500
"Database error occurred"; the users ensured at step 9 remain created. -/
theorem postTip_insert_race (db : DbState) (env : ChainEnv) (race : List Tip)
    (body : CreateTipRequest) (c0 : Confession) (amt : ℚ)
    (hmiss : (isMissing body.confession_id || isMissing body.tipper_address
      || isMissing body.transaction_hash) = false)
    (hfmt : (isAddressFormat (body.tipper_address.getD "")
      && isTxHashFormat (body.transaction_hash.getD "")) = true)
    (hdup : getTipByTransactionHash db.tips (body.transaction_hash.getD "") = none)
    (hrace : ((db.tips ++ race).any fun t =>
      t.transaction_hash == body.transaction_hash.getD "") = true)
    (hrl : checkRateLimit
      (if env.rateStoreError then Except.error "rate limit store unavailable"
       else Except.ok db.tips)
      (body.tipper_address.getD "") RATE_LIMITS_tip env.now = .ok true)
    (hconf : getConfessionById db.confessions (body.confession_id.getD "")
      = some c0)
    (hself : (toLowerCase c0.author_address
      == toLowerCase (body.tipper_address.getD "")) = false)
    (hver : verifyPayment env (body.tipper_address.getD "")
      (body.transaction_hash.getD "") = .ok amt) :
    postTip db env race body =
      (.failure 500 "Database error occurred",
        { db with users := (getOrCreateUser
            (getOrCreateUser db.users (body.tipper_address.getD ""))
            c0.author_address) }) := by
  simp [postTip, hmiss, hfmt, hdup, hrl, hconf, hself, hver, createTip, hrace]

/-- Chain verification only ever fails with status 400 or 500. -/
theorem verifyPayment_failure_status (env : ChainEnv) (t h : String)
    (st : Nat) (msg : String)
    (hv : verifyPayment env t h = .failure st msg) : st = 400 ∨ st = 500 := by
  unfold verifyPayment at hv
  repeat' split at hv
  all_goals try simp_all
  all_goals (try (split at hv))
  all_goals try simp_all

theorem any_append_nil_of_find?_none (tips : List Tip) (h : String)
    (hdup : getTipByTransactionHash tips h = none) :
    ((tips ++ ([] : List Tip)).any fun t => t.transaction_hash == h) = false := by
  rw [List.append_nil, List.any_eq_false]
  intro x hx
  have hnone := List.find?_eq_none.mp hdup x hx
  simpa using hnone

theorem successAmounts_cons (r : TipResponse) (rs : List TipResponse) :
    successAmounts (r :: rs) =
      (match r with
        | .success t _ => t.amount
        | .failure _ _ => 0) + successAmounts rs := by
  simp [successAmounts]

theorem postTip_success_aggregates (db : DbState) (env : ChainEnv)
    (body : CreateTipRequest) (tip : Tip) (conf : Confession) (db' : DbState)
    (h : postTip db env [] body = (.success tip conf, db')) :
    tip.confession_id = body.confession_id.getD "" ∧
    tip.tipper_address = body.tipper_address.getD "" ∧
    db'.tips = db.tips ++ [tip] ∧
    confTotal db' tip.confession_id = confTotal db tip.confession_id + tip.amount ∧
    confCount db' tip.confession_id = confCount db tip.confession_id + 1 ∧
    userGiven db' tip.tipper_address = userGiven db tip.tipper_address + tip.amount ∧
    userReceived db' (confOwner db tip.confession_id)
      = userReceived db (confOwner db tip.confession_id) + tip.amount := by
  obtain ⟨c0, hmiss, hfmt, hdup, hconf, hself, hver, ht, hc, hd⟩ :=
    postTip_success_inv db env body tip conf db' h
  have hcid : tip.confession_id = body.confession_id.getD "" := by rw [ht]; rfl
  have htip : tip.tipper_address = body.tipper_address.getD "" := by rw [ht]; rfl
  have howner : confOwner db tip.confession_id = c0.author_address := by
    rw [hcid]; unfold confOwner; rw [hconf]; rfl
  subst hd
  refine ⟨hcid, htip, ?_, ?_, ?_, ?_, ?_⟩
  · simp only [successState]; rw [← ht]
  · rw [hcid]; unfold confTotal
    simp only [successState]
    rw [getConfessionById_update, hconf]
    simp
  · rw [hcid]; unfold confCount
    simp only [successState]
    rw [getConfessionById_update, hconf]
    simp
  · rw [htip]; unfold userGiven
    simp only [successState]
    rw [givenOf_increment_received]
    have hpres : ((getOrCreateUser
        (getOrCreateUser db.users (body.tipper_address.getD ""))
        c0.author_address).find? fun u =>
          u.address == body.tipper_address.getD "").isSome = true :=
      present_mono_getOrCreateUser _ _ _ (present_getOrCreateUser _ _)
    rw [givenOf_increment_given _ _ _ hpres,
      givenOf_getOrCreateUser, givenOf_getOrCreateUser]
  · rw [howner]; unfold userReceived
    simp only [successState]
    have hpres0 : ((getOrCreateUser
        (getOrCreateUser db.users (body.tipper_address.getD ""))
        c0.author_address).find? fun u =>
          u.address == c0.author_address).isSome = true :=
      present_getOrCreateUser _ _
    have hpres : ((increment_user_tips_given
        (getOrCreateUser (getOrCreateUser db.users (body.tipper_address.getD ""))
          c0.author_address)
        (body.tipper_address.getD "") tip.amount).find? fun u =>
          u.address == c0.author_address).isSome = true :=
      present_increment_given _ _ _ _ (fun u => rfl) hpres0
    rw [receivedOf_increment_received _ _ _ hpres,
      receivedOf_increment_given,
      receivedOf_getOrCreateUser, receivedOf_getOrCreateUser]

theorem runSeq_aggregates :
    ∀ (env : ChainEnv) (db0 : DbState) (reqs : List CreateTipRequest) (S : String),
      (∀ r ∈ reqs, r.confession_id = some S) →
      (∀ resp ∈ (runSeq env db0 reqs).2, isSuccess resp = true) →
      confTotal (runSeq env db0 reqs).1 S
        = confTotal db0 S + successAmounts (runSeq env db0 reqs).2 ∧
      confCount (runSeq env db0 reqs).1 S = confCount db0 S + reqs.length := by
  intro env db0 reqs S
  induction reqs generalizing db0 with
  | nil => intro _ _; simp [runSeq, successAmounts]
  | cons r rs ih =>
    intro hS hsucc
    rcases hstep : postTip db0 env [] r with ⟨resp1, db1⟩
    have hrs : runSeq env db0 (r :: rs)
        = ((runSeq env db1 rs).1, resp1 :: (runSeq env db1 rs).2) := by
      simp [runSeq, hstep]
    rw [hrs] at hsucc ⊢
    have hhead : isSuccess resp1 = true := hsucc _ (by simp)
    have htail : ∀ resp ∈ (runSeq env db1 rs).2, isSuccess resp = true :=
      fun resp hr => hsucc _ (by simp [hr])
    cases resp1 with
    | failure st msg => simp [isSuccess] at hhead
    | success tip conf =>
      obtain ⟨hcid, _, _, h4, h5, _, _⟩ :=
        postTip_success_aggregates db0 env r tip conf db1 hstep
      have hrS : r.confession_id = some S := hS r (by simp)
      have hcidS : tip.confession_id = S := by rw [hcid, hrS]; rfl
      rw [hcidS] at h4 h5
      obtain ⟨ihT, ihC⟩ := ih db1 (fun x hx => hS x (by simp [hx])) htail
      constructor
      · rw [successAmounts_cons]
        simp only
        rw [ihT, h4]; ring
      · rw [ihC, h5, List.length_cons]; omega


/-! ## Claim theorems -/

/-- C1: when a TipRecord with the submitted reference already exists, a
well-formed `POST /api/tips` answers 409 (DuplicateTip) before any further
processing and leaves the store untouched; a successful call inserts
exactly one tip row; and an immediate identical second call answers 409
and changes nothing, so two sequential identical calls yield exactly one
TipRecord and one aggregate update. -/
theorem c1_admitTip_idempotency :
    (∀ (db : DbState) (env : ChainEnv) (race : List Tip)
        (body : CreateTipRequest) (t : Tip),
      (isMissing body.confession_id || isMissing body.tipper_address
        || isMissing body.transaction_hash) = false →
      (isAddressFormat (body.tipper_address.getD "")
        && isTxHashFormat (body.transaction_hash.getD "")) = true →
      getTipByTransactionHash db.tips (body.transaction_hash.getD "") = some t →
      postTip db env race body =
        (.failure 409 "Tip already processed for this transaction", db)) ∧
    (∀ (db : DbState) (env : ChainEnv) (body : CreateTipRequest)
        (tip : Tip) (conf : Confession) (db' : DbState),
      postTip db env [] body = (.success tip conf, db') →
      db'.tips = db.tips ++ [tip] ∧
      postTip db' env [] body =
        (.failure 409 "Tip already processed for this transaction", db')) := by
  refine ⟨postTip_dup, ?_⟩
  intro db env body tip conf db' h
  obtain ⟨c0, hmiss, hfmt, hdup, hconf, hself, hver, ht, hc, hd⟩ :=
    postTip_success_inv db env body tip conf db' h
  have htips : db'.tips = db.tips ++ [tip] := by
    rw [hd]; simp only [successState]; rw [← ht]
  refine ⟨htips, ?_⟩
  have hhash : tip.transaction_hash = body.transaction_hash.getD "" := by
    rw [ht]; rfl
  have hdup2 : getTipByTransactionHash db'.tips (body.transaction_hash.getD "")
      = some tip := by
    rw [htips]
    unfold getTipByTransactionHash at hdup ⊢
    rw [List.find?_append, hdup, Option.none_or, List.find?_cons]
    simp [hhash]
  exact postTip_dup db' env [] body tip hmiss hfmt hdup2

/-- C1 at concrete inputs: a store that already holds the reference answers
409 unchanged; after the example success, resubmitting the same request
answers 409 and leaves the store at its post-success state. -/
theorem c1_admitTip_idempotency_witness :
    postTip exDbDup exEnv [] exBody =
      (.failure 409 "Tip already processed for this transaction", exDbDup) ∧
    exDbAfter.tips = exDb.tips ++ [exTip] ∧
    postTip exDbAfter exEnv [] exBody =
      (.failure 409 "Tip already processed for this transaction", exDbAfter) := by
  refine ⟨c1_admitTip_idempotency.1 exDbDup exEnv [] exBody exDupTip (by decide)
    (by decide) (by decide), ?_, ?_⟩
  · exact (c1_admitTip_idempotency.2 exDb exEnv exBody exTip exConfessionAfter
      exDbAfter (by decide)).1
  · exact (c1_admitTip_idempotency.2 exDb exEnv exBody exTip exConfessionAfter
      exDbAfter (by decide)).2

/-- C3, counterexample: a self-tip whose reference was already processed is
answered 409 "Tip already processed for this transaction", not the claimed
unconditional 400 "Cannot tip your own confession". -/
theorem c3_self_tip_counterexample :
    getConfessionById exDbDup.confessions "conf-1" = some exConfession ∧
    toLowerCase exConfession.author_address = toLowerCase exOwner ∧
    postTip exDbDup exEnv [] c3Body =
      (.failure 409 "Tip already processed for this transaction", exDbDup) ∧
    (.failure 409 "Tip already processed for this transaction" : TipResponse) ≠
      .failure 400 "Cannot tip your own confession" := by
  exact ⟨by decide, by decide, by decide, by decide⟩

/-- C3, amended: a self-tip that passes the earlier checks (well-formed,
reference not yet recorded, rate limit admits) is answered 400
"Cannot tip your own confession" with the store untouched; and a self-tip
never inserts a TipRecord, whatever the other inputs. -/
theorem c3_self_tip_amended :
    (∀ (db : DbState) (env : ChainEnv) (race : List Tip)
        (body : CreateTipRequest) (c0 : Confession),
      (isMissing body.confession_id || isMissing body.tipper_address
        || isMissing body.transaction_hash) = false →
      (isAddressFormat (body.tipper_address.getD "")
        && isTxHashFormat (body.transaction_hash.getD "")) = true →
      getTipByTransactionHash db.tips (body.transaction_hash.getD "") = none →
      checkRateLimit
        (if env.rateStoreError then Except.error "rate limit store unavailable"
         else Except.ok db.tips)
        (body.tipper_address.getD "") RATE_LIMITS_tip env.now = .ok true →
      getConfessionById db.confessions (body.confession_id.getD "") = some c0 →
      toLowerCase c0.author_address = toLowerCase (body.tipper_address.getD "") →
      postTip db env race body =
        (.failure 400 "Cannot tip your own confession", db)) ∧
    (∀ (db : DbState) (env : ChainEnv) (race : List Tip)
        (body : CreateTipRequest) (c0 : Confession),
      getConfessionById db.confessions (body.confession_id.getD "") = some c0 →
      toLowerCase c0.author_address = toLowerCase (body.tipper_address.getD "") →
      ((postTip db env race body).2).tips = db.tips) := by
  refine ⟨postTip_selfTip, ?_⟩
  intro db env race body c0 hconf hself
  rcases postTip_cases db env race body with ⟨st, msg, db2, he, htips, _⟩ |
    ⟨c0', amt, _, _, _, _, hconf', hself', _, he⟩
  · rw [he]; exact htips
  · rw [hconf] at hconf'
    obtain rfl : c0 = c0' := by simpa using hconf'
    rw [hself] at hself'
    simp at hself'

/-- C3 amended at concrete inputs: the owner self-tipping a fresh reference
gets exactly the 400, and a self-tip against a dirty store inserts no tip. -/
theorem c3_self_tip_amended_witness :
    postTip exDb exEnv [] c3Body =
      (.failure 400 "Cannot tip your own confession", exDb) ∧
    ((postTip exDbDup exEnv [] c3Body).2).tips = exDbDup.tips := by
  constructor
  · exact c3_self_tip_amended.1 exDb exEnv [] c3Body exConfession (by decide)
      (by decide) (by decide) (by rfl) (by decide) (by decide)
  · exact c3_self_tip_amended.2 exDbDup exEnv [] c3Body exConfession (by decide)
      (by decide)

/-- C4: when the decoded Transfer sender differs case-insensitively from
the claimed payer, the route rejects with 400 "Transaction sender does not
match tipper address" and writes nothing, regardless of the amount or any
later condition. -/
theorem c4_sender_mismatch :
    ∀ (db : DbState) (env : ChainEnv) (race : List Tip)
      (body : CreateTipRequest) (c0 : Confession)
      (transaction : TransactionData) (receipt : TransactionReceipt)
      (usdcAddr : String) (transferLog : LogEntry) (decoded : DecodedTransfer),
      (isMissing body.confession_id || isMissing body.tipper_address
        || isMissing body.transaction_hash) = false →
      (isAddressFormat (body.tipper_address.getD "")
        && isTxHashFormat (body.transaction_hash.getD "")) = true →
      getTipByTransactionHash db.tips (body.transaction_hash.getD "") = none →
      checkRateLimit
        (if env.rateStoreError then Except.error "rate limit store unavailable"
         else Except.ok db.tips)
        (body.tipper_address.getD "") RATE_LIMITS_tip env.now = .ok true →
      getConfessionById db.confessions (body.confession_id.getD "") = some c0 →
      (toLowerCase c0.author_address
        == toLowerCase (body.tipper_address.getD "")) = false →
      env.getTransaction (body.transaction_hash.getD "") = some transaction →
      env.getTransactionReceipt (body.transaction_hash.getD "") = some receipt →
      receipt.status = "success" →
      env.usdcAddress = some usdcAddr →
      transaction.toAddr.map toLowerCase = some (toLowerCase usdcAddr) →
      findTransferLog receipt.logs usdcAddr = some transferLog →
      env.decodeTransferLog transferLog = some decoded →
      (toLowerCase decoded.fromAddr
        == toLowerCase (body.tipper_address.getD "")) = false →
      postTip db env race body =
        (.failure 400 "Transaction sender does not match tipper address", db) := by
  intro db env race body c0 transaction receipt usdcAddr transferLog decoded
    hmiss hfmt hdup hrl hconf hself htx hrc hst husdc hto hlog hdec hfrom
  have hver : verifyPayment env (body.tipper_address.getD "")
      (body.transaction_hash.getD "")
      = .failure 400 "Transaction sender does not match tipper address" := by
    simp [verifyPayment, htx, hrc, hst, husdc, hto, hlog, hdec, hfrom]
    intro hcontra
    exact absurd hcontra (by simpa using hfrom)
  exact postTip_verify_fail db env race body c0 400 _ hmiss hfmt hdup hrl hconf
    hself hver

/-- C4 at concrete inputs: a verified transfer whose sender is the owner,
claimed by a different payer, is rejected with the sender-mismatch 400. -/
theorem c4_sender_mismatch_witness :
    postTip exDb exEnvMismatch [] exBody =
      (.failure 400 "Transaction sender does not match tipper address", exDb) := by
  exact c4_sender_mismatch exDb exEnvMismatch [] exBody exConfession
    { toAddr := some exUsdc } { status := "success", logs := [exLog] }
    exUsdc exLog { fromAddr := exOwner, toRecipient := exOwner, value := 50000 }
    (by decide) (by decide) (by decide) (by rfl) (by decide) (by decide)
    (by decide) (by decide) (by decide) (by decide) (by decide) (by decide)
    (by decide) (by decide)


/-- C2: a successful admission of amount `a` adds `a` to the subject's
`total_tips` and 1 to its `tip_count`, adds `a` to the payer's
`total_tips_given` and `a` to the owner's `total_tips_received`; and over
any sequence of successfully admitted tips on one subject, `total_tips`
grows by exactly the sum of the admitted amounts and `tip_count` by their
number (amounts are exact rationals, so the 1e-6 tolerance is met). -/
theorem c2_aggregate_consistency :
    (∀ (db : DbState) (env : ChainEnv) (body : CreateTipRequest)
        (tip : Tip) (conf : Confession) (db' : DbState),
      postTip db env [] body = (.success tip conf, db') →
      confTotal db' tip.confession_id
        = confTotal db tip.confession_id + tip.amount ∧
      confCount db' tip.confession_id = confCount db tip.confession_id + 1 ∧
      userGiven db' tip.tipper_address
        = userGiven db tip.tipper_address + tip.amount ∧
      userReceived db' (confOwner db tip.confession_id)
        = userReceived db (confOwner db tip.confession_id) + tip.amount) ∧
    (∀ (env : ChainEnv) (db0 : DbState) (reqs : List CreateTipRequest)
        (S : String),
      (∀ r ∈ reqs, r.confession_id = some S) →
      (∀ resp ∈ (runSeq env db0 reqs).2, isSuccess resp = true) →
      confTotal (runSeq env db0 reqs).1 S
        = confTotal db0 S + successAmounts (runSeq env db0 reqs).2 ∧
      confCount (runSeq env db0 reqs).1 S = confCount db0 S + reqs.length) := by
  refine ⟨?_, runSeq_aggregates⟩
  intro db env body tip conf db' h
  obtain ⟨_, _, _, h4, h5, h6, h7⟩ :=
    postTip_success_aggregates db env body tip conf db' h
  exact ⟨h4, h5, h6, h7⟩

/-- C2 at concrete inputs: the example success moves the subject from
(0, 0) to (0.05, 1) and both user aggregates by 0.05; a one-request
sequence on the subject sums correctly. -/
theorem c2_aggregate_consistency_witness :
    (confTotal exDbAfter exTip.confession_id
      = confTotal exDb exTip.confession_id + exTip.amount ∧
     confCount exDbAfter exTip.confession_id
      = confCount exDb exTip.confession_id + 1 ∧
     userGiven exDbAfter exTip.tipper_address
      = userGiven exDb exTip.tipper_address + exTip.amount ∧
     userReceived exDbAfter (confOwner exDb exTip.confession_id)
      = userReceived exDb (confOwner exDb exTip.confession_id) + exTip.amount) ∧
    (confTotal (runSeq exEnv exDb [exBody]).1 "conf-1"
      = confTotal exDb "conf-1" + successAmounts (runSeq exEnv exDb [exBody]).2 ∧
     confCount (runSeq exEnv exDb [exBody]).1 "conf-1"
      = confCount exDb "conf-1" + 1) := by
  constructor
  · exact c2_aggregate_consistency.1 exDb exEnv exBody exTip exConfessionAfter
      exDbAfter (by decide)
  · exact c2_aggregate_consistency.2 exEnv exDb [exBody] "conf-1" (by decide)
      (by decide)

/-- C5: the verified amount is `rawAmount / 10^6`; with every other check
passing, admission succeeds exactly when `0.001 ≤ amount ≤ 1`, and any
amount outside is rejected with 400 "Tip amount must be between 0.001 and
1 USDC" and no write. -/
theorem c5_amount_bounds :
    ∀ (db : DbState) (env : ChainEnv) (body : CreateTipRequest) (c0 : Confession)
      (transaction : TransactionData) (receipt : TransactionReceipt)
      (usdcAddr : String) (transferLog : LogEntry) (decoded : DecodedTransfer)
      (v : Nat),
      (isMissing body.confession_id || isMissing body.tipper_address
        || isMissing body.transaction_hash) = false →
      (isAddressFormat (body.tipper_address.getD "")
        && isTxHashFormat (body.transaction_hash.getD "")) = true →
      getTipByTransactionHash db.tips (body.transaction_hash.getD "") = none →
      checkRateLimit
        (if env.rateStoreError then Except.error "rate limit store unavailable"
         else Except.ok db.tips)
        (body.tipper_address.getD "") RATE_LIMITS_tip env.now = .ok true →
      getConfessionById db.confessions (body.confession_id.getD "") = some c0 →
      (toLowerCase c0.author_address
        == toLowerCase (body.tipper_address.getD "")) = false →
      env.getTransaction (body.transaction_hash.getD "") = some transaction →
      env.getTransactionReceipt (body.transaction_hash.getD "") = some receipt →
      receipt.status = "success" →
      env.usdcAddress = some usdcAddr →
      transaction.toAddr.map toLowerCase = some (toLowerCase usdcAddr) →
      findTransferLog receipt.logs usdcAddr = some transferLog →
      env.decodeTransferLog transferLog = some decoded →
      (toLowerCase decoded.fromAddr
        == toLowerCase (body.tipper_address.getD "")) = true →
      decoded.value = v →
      ((1 / 1000 ≤ ((v : ℚ) / 1000000) ∧ ((v : ℚ) / 1000000) ≤ 1 →
        postTip db env [] body =
          (.success (mkTip env body ((v : ℚ) / 1000000))
            (bumpConfession c0 ((v : ℚ) / 1000000)),
            successState db env body c0.author_address ((v : ℚ) / 1000000))) ∧
       (((v : ℚ) / 1000000) < 1 / 1000 ∨ 1 < ((v : ℚ) / 1000000) →
        postTip db env [] body =
          (.failure 400 "Tip amount must be between 0.001 and 1 USDC", db))) := by
  intro db env body c0 transaction receipt usdcAddr transferLog decoded v
    hmiss hfmt hdup hrl hconf hself htx hrc hst husdc hto hlog hdec hfrom hval
  constructor
  · intro ⟨hlo, hhi⟩
    have hver : verifyPayment env (body.tipper_address.getD "")
        (body.transaction_hash.getD "") = .ok ((v : ℚ) / 1000000) := by
      have hnot : ¬(((v : ℚ) / 1000000) < 1 / 1000 ∨ 1 < ((v : ℚ) / 1000000)) := by
        push_neg
        exact ⟨hlo, hhi⟩
      simp only [verifyPayment, htx, hrc, hst, husdc, hto, hlog, hdec, hval]
      rw [if_neg (by simp [hst]), if_neg (by simp [hto]),
        if_neg (by simp; exact (by simpa using hfrom : _)),
        if_neg (by simpa using hnot)]
    exact postTip_verify_ok db env [] body c0 _ hmiss hfmt hdup
      (any_append_nil_of_find?_none db.tips _ hdup) hrl hconf hself hver
  · intro hout
    have hver : verifyPayment env (body.tipper_address.getD "")
        (body.transaction_hash.getD "")
        = .failure 400 "Tip amount must be between 0.001 and 1 USDC" := by
      simp only [verifyPayment, htx, hrc, hst, husdc, hto, hlog, hdec, hval]
      rw [if_neg (by simp [hst]), if_neg (by simp [hto]),
        if_neg (by simp; exact (by simpa using hfrom : _)),
        if_pos (by simpa using hout)]
    exact postTip_verify_fail db env [] body c0 400 _ hmiss hfmt hdup hrl hconf
      hself hver

/-- C5 at concrete inputs: raw values 1000 (0.001) and 1000000 (1.0) are
admitted; 999 (0.000999) and 1000001 (1.000001) are rejected with the
bounds message. -/
theorem c5_amount_bounds_witness :
    postTip exDb (exEnvVal 1000) [] exBody =
      (.success (mkTip (exEnvVal 1000) exBody (((1000 : Nat) : ℚ) / 1000000))
        (bumpConfession exConfession (((1000 : Nat) : ℚ) / 1000000)),
        successState exDb (exEnvVal 1000) exBody exConfession.author_address
          (((1000 : Nat) : ℚ) / 1000000)) ∧
    postTip exDb (exEnvVal 1000000) [] exBody =
      (.success
        (mkTip (exEnvVal 1000000) exBody (((1000000 : Nat) : ℚ) / 1000000))
        (bumpConfession exConfession (((1000000 : Nat) : ℚ) / 1000000)),
        successState exDb (exEnvVal 1000000) exBody
          exConfession.author_address (((1000000 : Nat) : ℚ) / 1000000)) ∧
    postTip exDb (exEnvVal 999) [] exBody =
      (.failure 400 "Tip amount must be between 0.001 and 1 USDC", exDb) ∧
    postTip exDb (exEnvVal 1000001) [] exBody =
      (.failure 400 "Tip amount must be between 0.001 and 1 USDC", exDb) := by
  refine ⟨?_, ?_, ?_, ?_⟩
  · exact (c5_amount_bounds exDb (exEnvVal 1000) exBody exConfession
      { toAddr := some exUsdc } { status := "success", logs := [exLog] }
      exUsdc exLog { fromAddr := exTipper, toRecipient := exOwner, value := 1000 }
      1000 (by decide) (by decide) (by decide) (by rfl) (by decide) (by decide)
      (by decide) (by decide) (by decide) (by decide) (by decide) (by decide)
      (by decide) (by decide) (by decide)).1 ⟨by decide, by decide⟩
  · exact (c5_amount_bounds exDb (exEnvVal 1000000) exBody exConfession
      { toAddr := some exUsdc } { status := "success", logs := [exLog] }
      exUsdc exLog
      { fromAddr := exTipper, toRecipient := exOwner, value := 1000000 }
      1000000 (by decide) (by decide) (by decide) (by rfl) (by decide)
      (by decide) (by decide) (by decide) (by decide) (by decide) (by decide)
      (by decide) (by decide) (by decide) (by decide)).1 ⟨by decide, by decide⟩
  · exact (c5_amount_bounds exDb (exEnvVal 999) exBody exConfession
      { toAddr := some exUsdc } { status := "success", logs := [exLog] }
      exUsdc exLog { fromAddr := exTipper, toRecipient := exOwner, value := 999 }
      999 (by decide) (by decide) (by decide) (by rfl) (by decide) (by decide)
      (by decide) (by decide) (by decide) (by decide) (by decide) (by decide)
      (by decide) (by decide) (by decide)).2 (by left; decide)
  · exact (c5_amount_bounds exDb (exEnvVal 1000001) exBody exConfession
      { toAddr := some exUsdc } { status := "success", logs := [exLog] }
      exUsdc exLog
      { fromAddr := exTipper, toRecipient := exOwner, value := 1000001 }
      1000001 (by decide) (by decide) (by decide) (by rfl) (by decide)
      (by decide) (by decide) (by decide) (by decide) (by decide) (by decide)
      (by decide) (by decide) (by decide) (by decide)).2 (by right; decide)

/-- C6, counterexample: a duplicate-reference failure at the insert step (a
lost race: the idempotency check saw nothing, a concurrent identical
request inserted first) is answered 500 "Database error occurred", not the
claimed 409 DuplicateTip. -/
theorem c6_insert_race_counterexample :
    getTipByTransactionHash exDb.tips exHash = none ∧
    postTip exDb exEnv [exDupTip] exBody =
      (.failure 500 "Database error occurred", exDbUsersOnly) ∧
    (.failure 500 "Database error occurred" : TipResponse) ≠
      .failure 409 "Tip already processed for this transaction" := by
  exact ⟨by decide, by decide, by decide⟩

/-- C6, amended: a duplicate-reference failure at the insert step surfaces
as a `DatabaseError` and is answered 500 "Database error occurred" (the
user rows ensured at step 9 remain); only the pre-insert idempotency check
produces the 409 DuplicateTip outcome. -/
theorem c6_insert_race_amended :
    ∀ (db : DbState) (env : ChainEnv) (race : List Tip)
      (body : CreateTipRequest) (c0 : Confession) (amt : ℚ),
      (isMissing body.confession_id || isMissing body.tipper_address
        || isMissing body.transaction_hash) = false →
      (isAddressFormat (body.tipper_address.getD "")
        && isTxHashFormat (body.transaction_hash.getD "")) = true →
      getTipByTransactionHash db.tips (body.transaction_hash.getD "") = none →
      ((db.tips ++ race).any fun t =>
        t.transaction_hash == body.transaction_hash.getD "") = true →
      checkRateLimit
        (if env.rateStoreError then Except.error "rate limit store unavailable"
         else Except.ok db.tips)
        (body.tipper_address.getD "") RATE_LIMITS_tip env.now = .ok true →
      getConfessionById db.confessions (body.confession_id.getD "") = some c0 →
      (toLowerCase c0.author_address
        == toLowerCase (body.tipper_address.getD "")) = false →
      verifyPayment env (body.tipper_address.getD "")
        (body.transaction_hash.getD "") = .ok amt →
      postTip db env race body =
        (.failure 500 "Database error occurred",
          { db with users := (getOrCreateUser
              (getOrCreateUser db.users (body.tipper_address.getD ""))
              c0.author_address) }) := by
  exact postTip_insert_race

/-- C6 amended at concrete inputs: the example request racing against an
identical concurrent insert is answered 500 with only the user rows
created. -/
theorem c6_insert_race_amended_witness :
    postTip exDb exEnv [exDupTip] exBody =
      (.failure 500 "Database error occurred", exDbUsersOnly) := by
  have h := c6_insert_race_amended exDb exEnv [exDupTip] exBody exConfession
    (1/20) (by decide) (by decide) (by decide) (by decide) (by rfl) (by decide)
    (by decide) (by decide)
  simpa [exDbUsersOnly, exDb] using h


/-- C7, counterexample: a malformed Transfer log that fails to decode is a
plain viem throw, not a `ValidationError`, so the route answers the generic
500 "An unexpected error occurred" — not a 400-equivalent rejection with a
decode sub-reason as claimed. -/
theorem c7_decode_failure_counterexample :
    findTransferLog [exLog] exUsdc = some exLog ∧
    exEnvBadDecode.decodeTransferLog exLog = none ∧
    postTip exDb exEnvBadDecode [] exBody =
      (.failure 500 "An unexpected error occurred", exDb) ∧
    (500 : Nat) ≠ 400 := by
  exact ⟨by decide, by decide, by decide, by decide⟩

/-- C7, amended: the verifier checks run in source order — transaction
lookup, receipt lookup and status, destination against the configured
asset, Transfer-log scan, decode — and each failure before the decode is a
400 carrying its specific message, propagated unchanged by the route; a
decode failure instead surfaces as the generic 500
"An unexpected error occurred". -/
theorem c7_verifier_errors_amended :
    (∀ (env : ChainEnv) (t h : String),
      env.getTransaction h = none →
      verifyPayment env t h =
        .failure 400 "Transaction not found on Base network") ∧
    (∀ (env : ChainEnv) (t h : String) (tx : TransactionData),
      env.getTransaction h = some tx →
      env.getTransactionReceipt h = none →
      verifyPayment env t h =
        .failure 400 "Transaction not confirmed or failed") ∧
    (∀ (env : ChainEnv) (t h : String) (tx : TransactionData)
        (rc : TransactionReceipt),
      env.getTransaction h = some tx →
      env.getTransactionReceipt h = some rc →
      rc.status ≠ "success" →
      verifyPayment env t h =
        .failure 400 "Transaction not confirmed or failed") ∧
    (∀ (env : ChainEnv) (t h : String) (tx : TransactionData)
        (rc : TransactionReceipt) (u : String),
      env.getTransaction h = some tx →
      env.getTransactionReceipt h = some rc →
      rc.status = "success" →
      env.usdcAddress = some u →
      tx.toAddr.map toLowerCase ≠ some (toLowerCase u) →
      verifyPayment env t h =
        .failure 400 "Transaction is not a USDC transfer") ∧
    (∀ (env : ChainEnv) (t h : String) (tx : TransactionData)
        (rc : TransactionReceipt) (u : String),
      env.getTransaction h = some tx →
      env.getTransactionReceipt h = some rc →
      rc.status = "success" →
      env.usdcAddress = some u →
      tx.toAddr.map toLowerCase = some (toLowerCase u) →
      findTransferLog rc.logs u = none →
      verifyPayment env t h =
        .failure 400 "No USDC transfer found in transaction") ∧
    (∀ (env : ChainEnv) (t h : String) (tx : TransactionData)
        (rc : TransactionReceipt) (u : String) (lg : LogEntry),
      env.getTransaction h = some tx →
      env.getTransactionReceipt h = some rc →
      rc.status = "success" →
      env.usdcAddress = some u →
      tx.toAddr.map toLowerCase = some (toLowerCase u) →
      findTransferLog rc.logs u = some lg →
      env.decodeTransferLog lg = none →
      verifyPayment env t h =
        .failure 500 "An unexpected error occurred") ∧
    (∀ (db : DbState) (env : ChainEnv) (race : List Tip)
        (body : CreateTipRequest) (c0 : Confession) (st : Nat) (msg : String),
      (isMissing body.confession_id || isMissing body.tipper_address
        || isMissing body.transaction_hash) = false →
      (isAddressFormat (body.tipper_address.getD "")
        && isTxHashFormat (body.transaction_hash.getD "")) = true →
      getTipByTransactionHash db.tips (body.transaction_hash.getD "") = none →
      checkRateLimit
        (if env.rateStoreError then Except.error "rate limit store unavailable"
         else Except.ok db.tips)
        (body.tipper_address.getD "") RATE_LIMITS_tip env.now = .ok true →
      getConfessionById db.confessions (body.confession_id.getD "") = some c0 →
      (toLowerCase c0.author_address
        == toLowerCase (body.tipper_address.getD "")) = false →
      verifyPayment env (body.tipper_address.getD "")
        (body.transaction_hash.getD "") = .failure st msg →
      postTip db env race body = (.failure st msg, db)) := by
  refine ⟨?_, ?_, ?_, ?_, ?_, ?_, postTip_verify_fail⟩
  · intro env t h htx
    simp [verifyPayment, htx]
  · intro env t h tx htx hrc
    simp [verifyPayment, htx, hrc]
  · intro env t h tx rc htx hrc hst
    simp [verifyPayment, htx, hrc, hst]
  · intro env t h tx rc u htx hrc hst husdc hto
    simp [verifyPayment, htx, hrc, hst, husdc, hto]
  · intro env t h tx rc u htx hrc hst husdc hto hlog
    simp [verifyPayment, htx, hrc, hst, husdc, hto, hlog]
  · intro env t h tx rc u lg htx hrc hst husdc hto hlog hdec
    simp [verifyPayment, htx, hrc, hst, husdc, hto, hlog, hdec]

/-- C7 amended at concrete inputs: each verifier failure at its exact
status and message, and the route propagating the first one. -/
theorem c7_verifier_errors_amended_witness :
    verifyPayment exEnvNoTx exTipper exHash =
      .failure 400 "Transaction not found on Base network" ∧
    verifyPayment exEnvNoReceipt exTipper exHash =
      .failure 400 "Transaction not confirmed or failed" ∧
    verifyPayment exEnvRevert exTipper exHash =
      .failure 400 "Transaction not confirmed or failed" ∧
    verifyPayment exEnvWrongTo exTipper exHash =
      .failure 400 "Transaction is not a USDC transfer" ∧
    verifyPayment exEnvNoLog exTipper exHash =
      .failure 400 "No USDC transfer found in transaction" ∧
    verifyPayment exEnvBadDecode exTipper exHash =
      .failure 500 "An unexpected error occurred" ∧
    postTip exDb exEnvNoTx [] exBody =
      (.failure 400 "Transaction not found on Base network", exDb) := by
  refine ⟨?_, ?_, ?_, ?_, ?_, ?_, ?_⟩
  · exact c7_verifier_errors_amended.1 exEnvNoTx exTipper exHash (by decide)
  · exact c7_verifier_errors_amended.2.1 exEnvNoReceipt exTipper exHash
      { toAddr := some exUsdc } (by decide) (by decide)
  · exact c7_verifier_errors_amended.2.2.1 exEnvRevert exTipper exHash
      { toAddr := some exUsdc } { status := "reverted", logs := [exLog] }
      (by decide) (by decide) (by decide)
  · exact c7_verifier_errors_amended.2.2.2.1 exEnvWrongTo exTipper exHash
      { toAddr := some "0xcccccccccccccccccccccccccccccccccccccccc" }
      { status := "success", logs := [exLog] } exUsdc
      (by decide) (by decide) (by decide) (by decide) (by decide)
  · exact c7_verifier_errors_amended.2.2.2.2.1 exEnvNoLog exTipper exHash
      { toAddr := some exUsdc } { status := "success", logs := [] } exUsdc
      (by decide) (by decide) (by decide) (by decide) (by decide) (by decide)
  · exact c7_verifier_errors_amended.2.2.2.2.2.1 exEnvBadDecode exTipper exHash
      { toAddr := some exUsdc } { status := "success", logs := [exLog] }
      exUsdc exLog (by decide) (by decide) (by decide) (by decide) (by decide)
      (by decide) (by decide)
  · exact c7_verifier_errors_amended.2.2.2.2.2.2 exDb exEnvNoTx [] exBody
      exConfession 400 "Transaction not found on Base network" (by decide)
      (by decide) (by decide) (by rfl) (by decide) (by decide) (by decide)

/-- C8, counterexample: a trace of 51 admitted tips on which the claimed
fixed-window counter admits the 52nd check while `checkRateLimit` — a
sliding count of the payer's tips in the trailing 24 hours — rejects it
(and its rejection carries a fixed message, no `retryAfterSeconds`). -/
theorem c8_rate_limiter_counterexample :
    ((runFixedWindow 86400000 50 none c8Times).2.all fun b => b) = true ∧
    checkRateLimit (.ok c8Tips) exTipper RATE_LIMITS_tip 86400012 =
      .error "Rate limit exceeded. Maximum 50 tips per day." := by
  exact ⟨by decide, by rfl⟩

/-- C8, amended: the tip pipeline's rate limiter is a sliding-window count
over the `tips` table: it rejects with a fixed `RateLimitError` message
exactly when the payer has at least `maxRequests` tips created in the
trailing `windowMs`; tips older than the window never affect the outcome;
the tip policy is 50 per 24 hours; and the route answers such a rejection
with 429. -/
theorem c8_rate_limiter_amended :
    (∀ (tips : List Tip) (addr : String) (cfg : RateLimitConfig) (now : Int),
      (checkRateLimit (.ok tips) addr cfg now = .ok true ↔
        tipCountSince tips addr (now - cfg.windowMs) < cfg.maxRequests)) ∧
    (∀ (tips : List Tip) (addr : String) (cfg : RateLimitConfig) (now : Int),
      cfg.maxRequests ≤ tipCountSince tips addr (now - cfg.windowMs) →
      checkRateLimit (.ok tips) addr cfg now =
        .error ("Rate limit exceeded. Maximum " ++ toString cfg.maxRequests
          ++ " tips per day.")) ∧
    RATE_LIMITS_tip = { maxRequests := 50, windowMs := 86400000 } ∧
    (∀ (tips1 tips2 : List Tip) (addr : String) (cfg : RateLimitConfig)
        (now : Int),
      (∀ t ∈ tips1, t.created_at < now - cfg.windowMs) →
      checkRateLimit (.ok (tips1 ++ tips2)) addr cfg now =
        checkRateLimit (.ok tips2) addr cfg now) ∧
    (∀ (db : DbState) (env : ChainEnv) (race : List Tip)
        (body : CreateTipRequest),
      (isMissing body.confession_id || isMissing body.tipper_address
        || isMissing body.transaction_hash) = false →
      (isAddressFormat (body.tipper_address.getD "")
        && isTxHashFormat (body.transaction_hash.getD "")) = true →
      getTipByTransactionHash db.tips (body.transaction_hash.getD "") = none →
      env.rateStoreError = false →
      50 ≤ tipCountSince db.tips (body.tipper_address.getD "")
        (env.now - 86400000) →
      postTip db env race body =
        (.failure 429 "Rate limit exceeded. Maximum 50 tips per day.", db)) := by
  refine ⟨?_, ?_, rfl, ?_, ?_⟩
  · intro tips addr cfg now
    unfold checkRateLimit
    by_cases h : cfg.maxRequests ≤ tipCountSince tips addr (now - cfg.windowMs)
    · simp [h]
    · simp [h]
      omega
  · intro tips addr cfg now h
    unfold checkRateLimit
    simp [h]
  · intro tips1 tips2 addr cfg now hold
    have hnil : (tips1.filter fun t =>
        t.tipper_address == addr && decide (now - cfg.windowMs ≤ t.created_at))
        = [] := by
      rw [List.filter_eq_nil_iff]
      intro t ht
      have h1 := hold t ht
      simp
      intro _
      omega
    unfold checkRateLimit tipCountSince
    dsimp only
    rw [List.filter_append, hnil]
    simp
  · intro db env race body hmiss hfmt hdup henv hcnt
    have hrl : checkRateLimit (.ok db.tips) (body.tipper_address.getD "")
        RATE_LIMITS_tip env.now =
        .error "Rate limit exceeded. Maximum 50 tips per day." := by
      unfold checkRateLimit
      simp only [RATE_LIMITS_tip] at hcnt ⊢
      rw [if_pos hcnt]
      rfl
    simp [postTip, hmiss, hfmt, hdup, henv, hrl]

/-- C8 amended at concrete inputs: an under-limit payer admitted, an
at-limit payer rejected with the exact message, window irrelevance of an
old tip, and the route's 429 at a store with 50 recent tips. -/
theorem c8_rate_limiter_amended_witness :
    checkRateLimit (.ok [c8Tip 10]) exTipper RATE_LIMITS_tip 80000000
      = .ok true ∧
    checkRateLimit (.ok (List.replicate 50 (c8Tip 999))) exTipper
      RATE_LIMITS_tip 1000 =
      .error ("Rate limit exceeded. Maximum " ++ toString (50 : Nat)
        ++ " tips per day.") ∧
    checkRateLimit (.ok ([c8Tip 10] ++ [c8Tip 86400011])) exTipper
      RATE_LIMITS_tip 86400012 =
      checkRateLimit (.ok [c8Tip 86400011]) exTipper RATE_LIMITS_tip 86400012 ∧
    postTip c8Db exEnv [] exBody =
      (.failure 429 "Rate limit exceeded. Maximum 50 tips per day.", c8Db) := by
  refine ⟨?_, ?_, ?_, ?_⟩
  · exact (c8_rate_limiter_amended.1 [c8Tip 10] exTipper RATE_LIMITS_tip 80000000).mpr
      (by decide)
  · exact c8_rate_limiter_amended.2.1 (List.replicate 50 (c8Tip 999)) exTipper
      RATE_LIMITS_tip 1000 (by decide)
  · exact c8_rate_limiter_amended.2.2.2.1 [c8Tip 10] [c8Tip 86400011] exTipper
      RATE_LIMITS_tip 86400012 (by decide)
  · exact c8_rate_limiter_amended.2.2.2.2 c8Db exEnv [] exBody (by decide) (by decide)
      (by decide) (by decide) (by decide)



/-- C9, counterexample: the 201 success body embeds the full updated
confession row, whose `author_address` is the owner's address — the owner
address does appear in the route's output. -/
theorem c9_owner_exposure_counterexample :
    (postTip exDb exEnv [] exBody).1 = .success exTip exConfessionAfter ∧
    exConfessionAfter.author_address = exOwner ∧
    exConfession.author_address = exOwner := by
  exact ⟨by decide, by decide, by decide⟩

/-- C9, amended: every success response exposes the stored subject's
`author_address` through the returned confession snapshot; the TipRecord
itself carries only the generated id, subject id, payer address, amount,
reference and timestamp, and error responses carry only a status and a
message string. -/
theorem c9_owner_exposure_amended :
    ∀ (db : DbState) (env : ChainEnv) (body : CreateTipRequest)
      (tip : Tip) (conf : Confession) (db' : DbState),
      postTip db env [] body = (.success tip conf, db') →
      ∃ c0,
        getConfessionById db.confessions (body.confession_id.getD "") = some c0 ∧
        conf.author_address = c0.author_address ∧
        tip = mkTip env body tip.amount := by
  intro db env body tip conf db' h
  obtain ⟨c0, hmiss, hfmt, hdup, hconf, hself, hver, ht, hc, hd⟩ :=
    postTip_success_inv db env body tip conf db' h
  exact ⟨c0, hconf, by rw [hc]; rfl, ht⟩

/-- C9 amended at the example success: the returned confession's
`author_address` is the stored owner address. -/
theorem c9_owner_exposure_amended_witness :
    getConfessionById exDb.confessions "conf-1" = some exConfession ∧
    exConfessionAfter.author_address = exConfession.author_address ∧
    exTip = mkTip exEnv exBody exTip.amount := by
  obtain ⟨c0, h1, h2, h3⟩ := c9_owner_exposure_amended exDb exEnv exBody exTip
    exConfessionAfter exDbAfter (by decide)
  have hc0 : c0 = exConfession := by
    rw [show getConfessionById exDb.confessions (exBody.confession_id.getD "")
      = some exConfession from by decide] at h1
    simpa using h1.symm
  subst hc0
  exact ⟨h1, h2, h3⟩

/-- C10: the tip rate-limit check fails open — when the store's count query
errors, `checkRateLimit` logs and returns `true`, so with the rate-limit
store down the route can never answer 429; a storage outage disables rate
limiting rather than blocking tips. -/
theorem c10_rate_limit_fails_open :
    (∀ (e u : String) (cfg : RateLimitConfig) (now : Int),
      checkRateLimit (.error e) u cfg now = .ok true) ∧
    (∀ (db : DbState) (env : ChainEnv) (race : List Tip)
        (body : CreateTipRequest) (msg : String) (db2 : DbState),
      env.rateStoreError = true →
      postTip db env race body ≠ (.failure 429 msg, db2)) := by
  refine ⟨fun e u cfg now => rfl, ?_⟩
  intro db env race body msg db2 herr hcontra
  simp only [postTip, herr, checkRateLimit, if_true] at hcontra
  repeat' split at hcontra
  all_goals try simp_all
  case _ st msg2 hver =>
    rcases verifyPayment_failure_status _ _ _ _ _ hver with h4 | h5 <;> simp_all

/-- C10 at concrete inputs: an erroring store admits, and the example
request under a broken rate-limit store is not answered 429. -/
theorem c10_rate_limit_fails_open_witness :
    checkRateLimit (.error "connection refused") exTipper RATE_LIMITS_tip 1000
      = .ok true ∧
    postTip c8Db exEnvStoreErr [] exBody ≠
      (.failure 429 "Rate limit exceeded. Maximum 50 tips per day.", c8Db) := by
  constructor
  · exact c10_rate_limit_fails_open.1 "connection refused" exTipper
      RATE_LIMITS_tip 1000
  · exact c10_rate_limit_fails_open.2 c8Db exEnvStoreErr [] exBody
      "Rate limit exceeded. Maximum 50 tips per day." c8Db (by decide)

end ConfessionTip
